import Mathlib

/-!
Shallow embedding of the synchronization core of `src/spotify.py`
(class `SyncManager` together with its `AudioPlayer` bridge).

Modelling conventions:
* Python integers become `Int` (VLC `get_time`/`get_length` may return
  negative sentinel values, Spotify millisecond fields are plain ints).
* External collaborators (Spotify client, Tidal client, VLC player) are
  modelled as oracles: their per-call answers are inputs of the tick, and the
  commands the engine sends to them are collected in a `Cmd` list in the
  order the source issues them.
* Calls whose exceptions the source swallows locally (`try ... except: pass`)
  still contribute their command; calls whose exception would escape the
  function are modelled as succeeding here - an escaping exception aborts the
  tick and is the concern of the `control_loop` model below.
* The VLC player is modelled synchronously: after the engine issues
  `player.pause()` / `player.resume()`, a subsequent `is_playing()` query in
  the same tick reports the toggled value; `get_time`/`get_length` are fixed
  for the duration of one query site.
* Python float division `get_time() / get_duration() >= 0.90` is modelled by
  exact rational arithmetic; a zero VLC duration raises in Python (aborting
  the tick) and is excluded by hypotheses where it matters.
-/

/-- A Spotify track object as read from the playback snapshot
(`sp_playback['item']`): id, name, first artist name, `duration_ms`, and the
album-art URL extracted at lines 494-495 (absent when the nested access
raises). -/
structure SpTrack where
  id : String
  name : String
  artistName : String
  durationMs : Int
  imageUrl : Option String
deriving Repr, DecidableEq

/-- A Tidal track reference: numeric id, name, and duration in seconds
(`t.duration`). -/
structure TidalTrack where
  id : Nat
  name : String
  duration : Int
deriving Repr, DecidableEq

/-- The fields of `sp.current_playback()` that `sync_logic` reads:
the (nullable) item, `is_playing`, `progress_ms` and the device volume.
A `None` playback response and a missing item both behave identically in the
source (state "Spotify Idle"), so both are modelled as `item = none`. -/
structure SpPlayback where
  item : Option SpTrack
  isPlaying : Bool
  progressMs : Int
  volumePercent : Option Int
deriving Repr, DecidableEq

/-- One coherent observation of the VLC player (`AudioPlayer`):
`is_playing()`, `get_time()` and `get_length()`. -/
structure PlayerObs where
  isPlaying : Bool
  time : Int
  duration : Int
deriving Repr, DecidableEq

/-- Commands the engine issues to its external collaborators, in source
order. `spVolume0` is `self.sp.volume(0)`, `spPausePlayback` is
`self.sp.pause_playback()`, `spStartPlayback` is `self.sp.start_playback()`,
`spSeekStart` is `self.sp.seek_track(0)`, `spNextTrack` is
`self.sp.next_track()`; the `player*` commands are the `AudioPlayer` calls;
`tidalAddFavorite` is `self.tidal.add_favorite(id)`; `requestManualMatch` is
the `request_manual_match` callback; `saveMapping` is `save_mapping`;
`showPlaybackError` is the `messagebox.showerror` in `manual_map_track`. -/
inductive Cmd where
  | spVolume0
  | spPausePlayback
  | spStartPlayback
  | spSeekStart
  | spNextTrack
  | playerPlayUrl (url : String)
  | playerPause
  | playerResume
  | playerStop
  | tidalAddFavorite (id : Nat)
  | requestManualMatch (spId : String)
  | saveMapping (spId : String) (tidalId : Nat)
  | showPlaybackError
deriving Repr, DecidableEq

/-- The mutable state of `SyncManager` that the modelled operations touch.
`spConnected` records whether `self.sp` is set (it is `None` until `login`
succeeds). -/
structure SyncState where
  currentSpotifyTrack : Option SpTrack
  currentTidalTrack : Option TidalTrack
  status : String
  isPausedWaiting : Bool
  currentImageUrl : Option String
  muteSpotify : Bool
  autoFavorite : Bool
  currentSongFavorited : Bool
  waitingForUserSelection : Bool
  running : Bool
  spConnected : Bool
deriving Repr, DecidableEq

/-! ## TrackMatcher: `SyncManager.search_tidal_match` (lines 354-392) -/

/-- The external reads `search_tidal_match` performs: the persisted mapping
store (`load_mappings()`), `get_tidal_track_by_id` (which returns `None` when
`self.tidal.track` raises), and `self.tidal.search` keyed by the query string
(`none` models the search call raising, which the source downgrades to a
`None` result). -/
structure MatchEnv where
  mappings : List (String × Nat)
  fetchById : Nat → Option TidalTrack
  searchTracks : String → Option (List TidalTrack)

/-- Python `str.strip()`: drop leading and trailing whitespace. -/
def strip_chars (s : List Char) : List Char :=
  ((s.dropWhile Char.isWhitespace).reverse.dropWhile Char.isWhitespace).reverse

/-- Cleaned title, line 374: `track_name.split('(')[0].split('-')[0].strip()`:
the prefix before the first `(`, then before the first `-`, stripped. -/
def clean_name (s : String) : String :=
  String.mk (strip_chars
    ((s.data.takeWhile (fun c => c ≠ '(')).takeWhile (fun c => c ≠ '-')))

/-- The search query of line 375: cleaned title, a space, the first artist. -/
def match_query (sp : SpTrack) : String :=
  clean_name sp.name ++ " " ++ sp.artistName

/-- Duration filter of line 381: `abs((t.duration * 1000) - duration_ms) <= 5000`. -/
def duration_matches (durationMs : Int) (t : TidalTrack) : Bool :=
  (t.duration * 1000 - durationMs).natAbs ≤ 5000

/-- The search phase of `search_tidal_match` (lines 368-392): build the
query, search, take the first result within 5000 ms of the source duration
(the loop with `break` at lines 379-383); a raised search or no qualifying
candidate gives `none`. -/
def search_phase (env : MatchEnv) (sp : SpTrack) : Option TidalTrack :=
  match env.searchTracks (match_query sp) with
  | none => none
  | some results => results.find? (duration_matches sp.durationMs)

/-- `SyncManager.search_tidal_match`: consult the persisted mapping first
(lines 359-366); a present mapping whose fetch succeeds is returned directly,
a present mapping whose fetch fails falls through to the search, exactly like
an absent mapping. -/
def search_tidal_match (env : MatchEnv) (sp : SpTrack) : Option TidalTrack :=
  match (env.mappings.lookup sp.id).bind env.fetchById with
  | some t => some t
  | none => search_phase env sp

/-! ## SessionGuard: `SyncManager.check_and_refresh_session` (lines 394-403) -/

/-- The two `self.tidal.check_login()` answers a single
`check_and_refresh_session` call can consume. Per the source comment at
lines 398-399, the tidalapi session refreshes its token internally when
`check_login` finds it expired, so the second call is the re-check after
that one implicit refresh. -/
structure SessionChecks where
  firstCheck : Bool
  recheckAfterRefresh : Bool
deriving Repr, DecidableEq

/-- `SyncManager.check_and_refresh_session`: returns whether the session is
usable together with the number of `check_login` calls made (1 when the
first check passes, 2 otherwise - exactly one re-check after the refresh). -/
def check_and_refresh_session (c : SessionChecks) : Bool × Nat :=
  if c.firstCheck then (true, 1) else (c.recheckAfterRefresh, 2)

/-! ## PlaybackBridge: `SyncManager.attempt_play_tidal` (lines 405-458) -/

/-- The candidate quality attribute names probed on `tidalapi.Quality`,
line 414, in descending preference order. -/
def possible_attrs : List String :=
  ["hi_res_lossless", "high_lossless", "lossless", "high", "low"]

/-- The tier list built at lines 412-420: the possible attributes that exist
on the `Quality` class (a static property of the session's tidalapi), with
the module-level `PREFERRED_QUALITY` as singleton fallback when none do. -/
def qualities_to_try (hasAttr : String → Bool) (preferred : String) : List String :=
  let qs := possible_attrs.filter hasAttr
  if qs.isEmpty then [preferred] else qs

/-- The resolution loop of lines 425-438: try each tier in order, recording
the tiers actually attempted; stop at the first tier whose `get_url`
resolves (an exception and a falsy URL are both modelled as `none`). -/
def try_qualities (resolveUrl : String → Option String) :
    List String → List String × Option (String × String)
  | [] => ([], none)
  | q :: rest =>
    match resolveUrl q with
    | some u => ([q], some (q, u))
    | none =>
      let r := try_qualities resolveUrl rest
      (q :: r.1, r.2)

/-- External answers consumed by one `attempt_play_tidal` call: the session
checks, the static `hasattr(Quality, _)` probe, the module-level preferred
quality, the per-tier stream resolution, and whether the playback block at
lines 445-454 raises after `play_url`. -/
structure PlayEnv where
  session : SessionChecks
  hasAttr : String → Bool
  preferred : String
  resolveUrl : String → Option String
  playCrash : Bool

/-- Result of one `attempt_play_tidal` call: the boolean return value, the
`self.status` assignment it performed (if any), the commands issued, the
tiers attempted, and how many `check_login` calls were made. -/
structure PlayOutcome where
  ok : Bool
  status : Option String
  cmds : List Cmd
  attemptedQualities : List String
  sessionChecks : Nat

/-- `SyncManager.attempt_play_tidal` (lines 405-458): session guard first;
on failure set status "Session Expired" and return False with no playback
attempt. Otherwise walk the quality tiers; if no tier yields a URL, stop the
player and return False; else play the URL, restart the Spotify track
position (starting playback first when Spotify is paused), and set the
Playing status. A raise inside that last block stops the player and returns
False. -/
def attempt_play_tidal (env : PlayEnv) (track : TidalTrack) (spIsPlaying : Bool) :
    PlayOutcome :=
  let sess := check_and_refresh_session env.session
  if ¬ sess.1 then
    { ok := false, status := some "Session Expired", cmds := [],
      attemptedQualities := [], sessionChecks := sess.2 }
  else
    let tried := try_qualities env.resolveUrl (qualities_to_try env.hasAttr env.preferred)
    match tried.2 with
    | none =>
      { ok := false, status := none, cmds := [Cmd.playerStop],
        attemptedQualities := tried.1, sessionChecks := sess.2 }
    | some qu =>
      if env.playCrash then
        { ok := false, status := none,
          cmds := [Cmd.playerPlayUrl qu.2, Cmd.playerStop],
          attemptedQualities := tried.1, sessionChecks := sess.2 }
      else
        { ok := true,
          status := some ("Playing: " ++ track.name ++ " [" ++ qu.1.toUpper ++ "]"),
          cmds := Cmd.playerPlayUrl qu.2 ::
            (if ¬ spIsPlaying then [Cmd.spStartPlayback, Cmd.spSeekStart]
             else [Cmd.spSeekStart]),
          attemptedQualities := tried.1, sessionChecks := sess.2 }

/-! ## Steady-state playback monitor: `sync_logic` lines 524-553 -/

/-- Remaining Tidal playtime, line 541: `get_duration() - get_time()`. -/
def time_left_tidal (obs : PlayerObs) : Int :=
  obs.duration - obs.time

/-- Remaining Spotify playtime, line 542: `duration_ms - progress_ms`. -/
def time_left_sp (pb : SpPlayback) (spTrack : SpTrack) : Int :=
  spTrack.durationMs - pb.progressMs

/-- Pause/resume mirroring (lines 527-529): Spotify paused and the player
playing pauses the player; Spotify playing, player stopped and no buffering
hold resumes it, unless the player is within 500 ms of its own end. Returns
the `is_playing` value subsequent queries in the same tick observe, plus the
commands issued. -/
def mirror_step (pb : SpPlayback) (obs : PlayerObs) (pausedWaiting : Bool) :
    Bool × List Cmd :=
  if ¬ pb.isPlaying ∧ obs.isPlaying then (false, [Cmd.playerPause])
  else if pb.isPlaying ∧ ¬ obs.isPlaying ∧ ¬ pausedWaiting then
    if obs.time < obs.duration - 500 then (true, [Cmd.playerResume])
    else (obs.isPlaying, [])
  else (obs.isPlaying, [])

/-- The auto-favorite ratio test of line 533, `time / duration >= 0.90`,
with Python's float division modelled by the exact rational comparison
`t / d ≥ 9 / 10`, written integrally (sign-split on the denominator) so it
evaluates. (In Python a zero duration raises ZeroDivisionError, aborting the
tick; here the test is simply false.) -/
def fav_ratio_reached (t d : Int) : Bool :=
  decide ((0 < d ∧ 9 * d ≤ 10 * t) ∨ (d < 0 ∧ 10 * t ≤ 9 * d))

/-- The guard of the auto-favorite block, line 532-533: enabled, not yet
favorited this track, player playing (after mirroring), ratio reached. -/
def fav_fires (pb : SpPlayback) (obs : PlayerObs)
    (autoFav favorited pausedWaiting : Bool) : Bool :=
  autoFav && !favorited && (mirror_step pb obs pausedWaiting).1 &&
    fav_ratio_reached obs.time obs.duration

/-- The buffering-hold activation guard, line 545:
`time_left_sp < 3000 and time_left_tidal > 5000 and not is_paused_waiting`. -/
def hold_activates (pb : SpPlayback) (spTrack : SpTrack) (obs : PlayerObs)
    (pausedWaiting : Bool) : Bool :=
  decide (time_left_sp pb spTrack < 3000) && decide (time_left_tidal obs > 5000) &&
    !pausedWaiting

/-- The buffering-hold release guard, line 551, evaluated against the flag
value after a possible activation earlier in the same tick:
`is_paused_waiting and (time_left_tidal < 1000 or not player.is_playing())`. -/
def hold_releases (pb : SpPlayback) (spTrack : SpTrack) (obs : PlayerObs)
    (pausedWaiting : Bool) : Bool :=
  (pausedWaiting || hold_activates pb spTrack obs pausedWaiting) &&
    (decide (time_left_tidal obs < 1000) || !(mirror_step pb obs pausedWaiting).1)

/-- Output of the playback monitor: the new `current_song_favorited` and
`is_paused_waiting` values and the commands issued. -/
structure MonitorResult where
  favorited : Bool
  pausedWaiting : Bool
  cmds : List Cmd
deriving Repr, DecidableEq

/-- The steady-state playback monitor of `sync_logic`, lines 524-553 (the
block guarded by `current_tidal_track and not waiting_for_user_selection`):
mirroring, auto-favorite (the favorite command fires when the guard holds;
the flag is only set when the `add_favorite` call does not raise, since the
assignment sits after it inside the `try`), then the end-of-track handoff:
activate the buffering hold (pause Spotify, set the flag), and release it
(skip Spotify to the next track, clear the flag) when the hold is on and the
Tidal side is within 1000 ms of its end or no longer playing. -/
def playback_monitor (pb : SpPlayback) (spTrack : SpTrack) (obs : PlayerObs)
    (autoFav favorited pausedWaiting favSucceeds : Bool) (tidal : TidalTrack) :
    MonitorResult :=
  let m := mirror_step pb obs pausedWaiting
  let fire := fav_fires pb obs autoFav favorited pausedWaiting
  let favorited1 := if fire && favSucceeds then true else favorited
  let favCmds := if fire then [Cmd.tidalAddFavorite tidal.id] else []
  let act := hold_activates pb spTrack obs pausedWaiting
  let holdCmds := if act then [Cmd.spPausePlayback] else []
  let rel := hold_releases pb spTrack obs pausedWaiting
  let pw2 := if rel then false else pausedWaiting || act
  let nextCmds := if rel then [Cmd.spNextTrack] else []
  { favorited := favorited1, pausedWaiting := pw2,
    cmds := m.2 ++ favCmds ++ holdCmds ++ nextCmds }

/-! ## The tick: `SyncManager.sync_logic` (lines 475-553) -/

/-- All external answers one `sync_logic` tick can consume:
the `current_playback()` result (`none` models the call raising), the player
observation at the anti-flicker check (line 501-502), the player observation
in the monitor section (lines 527-551, one coherent reading), the matcher
environment, the playback environment, and whether a fired `add_favorite`
call succeeds. -/
structure TickInput where
  fetch : Option SpPlayback
  playerAtChange : PlayerObs
  playerAtMonitor : PlayerObs
  matchEnv : MatchEnv
  playEnv : PlayEnv
  favSucceeds : Bool

/-- The track-change block of `sync_logic` (lines 504-522), entered once the
anti-flicker guard has passed: commit the new Spotify track, clear the
user-selection and favorited flags, run the matcher; on a match set the
Loading status and attempt playback (a failed attempt leaves status
"Playback Error - Stopped"); on no match stop the player, clear the target
track, set the waiting flag and notify the manual-match collaborator. -/
def track_change_step (inp : TickInput) (s : SyncState) (pb : SpPlayback)
    (spTrack : SpTrack) : SyncState × List Cmd :=
  let s1 := { s with currentSpotifyTrack := some spTrack,
                     waitingForUserSelection := false,
                     currentSongFavorited := false }
  match search_tidal_match inp.matchEnv spTrack with
  | some t =>
    let s2 := { s1 with currentTidalTrack := some t,
                        status := "Loading: " ++ t.name ++ "..." }
    let outcome := attempt_play_tidal inp.playEnv t pb.isPlaying
    if outcome.ok then
      ({ s2 with status := outcome.status.getD s2.status }, outcome.cmds)
    else
      ({ s2 with status := "Playback Error - Stopped" }, outcome.cmds)
  | none =>
    ({ s1 with status := "Match Not Found - Waiting for User",
               currentTidalTrack := none,
               waitingForUserSelection := true },
     [Cmd.playerStop, Cmd.requestManualMatch spTrack.id])

/-- The playback-monitor section of the tick (lines 524-553): runs only when
a Tidal track is current and the engine is not waiting for a user selection;
otherwise the tick ends with the commands accumulated so far. -/
def monitor_after (inp : TickInput) (s : SyncState) (pb : SpPlayback)
    (spTrack : SpTrack) (acc : List Cmd) : SyncState × List Cmd :=
  match s.currentTidalTrack with
  | some tt =>
    if s.waitingForUserSelection then (s, acc)
    else
      let r := playback_monitor pb spTrack inp.playerAtMonitor s.autoFavorite
        s.currentSongFavorited s.isPausedWaiting inp.favSucceeds tt
      ({ s with currentSongFavorited := r.favorited,
                isPausedWaiting := r.pausedWaiting },
       acc ++ r.cmds)
  | none => (s, acc)

/-- `SyncManager.sync_logic` (lines 475-553): snapshot fetch (a raise gives
"Spotify Error", a missing item gives "Spotify Idle"); mute enforcement
(volume forced to 0 whenever it is not already 0, every tick); album-art
extraction; track-change detection guarded by the anti-flicker check of
lines 500-502 (`return` when the player is playing with strictly between 0
and 5000 ms left); then the steady-state monitor. -/
def sync_logic (inp : TickInput) (s : SyncState) : SyncState × List Cmd :=
  match inp.fetch with
  | none => ({ s with status := "Spotify Error" }, [])
  | some pb =>
    match pb.item with
    | none => ({ s with status := "Spotify Idle" }, [])
    | some spTrack =>
      let muteCmds := if s.muteSpotify ∧ pb.volumePercent ≠ some 0
        then [Cmd.spVolume0] else []
      let s1 := { s with currentImageUrl := spTrack.imageUrl }
      if s1.currentSpotifyTrack.all (fun t => t.id != spTrack.id) then
        let vlcLeft := inp.playerAtChange.duration - inp.playerAtChange.time
        if inp.playerAtChange.isPlaying ∧ 0 < vlcLeft ∧ vlcLeft < 5000 then
          (s1, muteCmds)
        else
          let r := track_change_step inp s1 pb spTrack
          monitor_after inp r.1 pb spTrack (muteCmds ++ r.2)
      else
        monitor_after inp s1 pb spTrack muteCmds

/-! ## `SyncManager.shutdown` (lines 460-473) -/

/-- `SyncManager.shutdown`: clear the running flag; pause Spotify inside its
own `try` (and only when `self.sp` is set); stop the player inside a second,
independent `try`. `pauseRaises` models the Spotify pause call raising - the
surrounding `except: pass` swallows it, so the issued commands do not depend
on it. -/
def shutdown (_pauseRaises : Bool) (s : SyncState) : SyncState × List Cmd :=
  let pauseCmds := if s.spConnected then [Cmd.spPausePlayback] else []
  ({ s with running := false }, pauseCmds ++ [Cmd.playerStop])

/-! ## Manual override: `SyncManager.manual_map_track` (lines 577-590) -/

/-- External answers consumed by one `manual_map_track` call: the playback
environment for the forced play attempt, and the `is_playing` answer of the
inline `current_playback()` probe (`none` models that probe raising, which
the source defaults to `True`). -/
structure ManualEnv where
  playEnv : PlayEnv
  currentPlaybackQuery : Option Bool

/-- `SyncManager.manual_map_track`: a no-op when no current Spotify track is
set; otherwise persist the mapping, set the chosen track as current target,
clear the waiting flag, set the Mapped status, probe the Spotify play state
(defaulting to playing on error), force a play attempt (whose own status
assignment, if any, wins), and surface a blocking error dialog when the
attempt fails. -/
def manual_map_track (env : ManualEnv) (s : SyncState) (t : TidalTrack) :
    SyncState × List Cmd :=
  match s.currentSpotifyTrack with
  | none => (s, [])
  | some spt =>
    let s1 := { s with currentTidalTrack := some t,
                       waitingForUserSelection := false,
                       status := "Mapped: " ++ t.name }
    let spPlaying := env.currentPlaybackQuery.getD true
    let outcome := attempt_play_tidal env.playEnv t spPlaying
    let errCmds := if outcome.ok then [] else [Cmd.showPlaybackError]
    ({ s1 with status := outcome.status.getD s1.status },
     Cmd.saveMapping spt.id t.id :: (outcome.cmds ++ errCmds))

/-! ## The control loop: `SyncManager.control_loop` (lines 555-564) -/

/-- Outcome of one tick body (`sync_logic` plus the GUI callback): either it
completes or it raises with a message. -/
inductive TickOutcome where
  | ok
  | raise (msg : String)
deriving Repr, DecidableEq

/-- `SyncManager.control_loop` after a successful login: while the running
flag holds, run the tick body inside `try`, appending a raised message to the
log (`logger.error`) and continuing; exit when the flag is observed false.
`ticks i` is the outcome of the body on iteration `i`, `runningAt i` the
value of `self.running` read at the top of iteration `i` (the flag is
cleared externally by `shutdown`). Fuel makes the recursion structural:
`none` means the flag never turned false within `fuel` iterations; `some
(n, log)` means the loop exited at iteration `n` with accumulated log. -/
def control_loop (ticks : Nat → TickOutcome) (runningAt : Nat → Bool) :
    Nat → Nat → List String → Option (Nat × List String)
  | 0, _, _ => none
  | fuel + 1, i, log =>
    if runningAt i then
      control_loop ticks runningAt fuel (i + 1)
        (match ticks i with
         | TickOutcome.ok => log
         | TickOutcome.raise e => log ++ [e])
    else
      some (i, log)

/-- The spec scenario for C2: source duration 200000 ms; candidates of 150 s
(off by 50 s), 198 s (off by 2 s) and 199 s (off by 1 s, closer) in that
order. -/
def c2Sp : SpTrack :=
  { id := "sp-a", name := "Song", artistName := "Artist",
    durationMs := 200000, imageUrl := none }

/-- Matcher environment for the C2 witness: no mapping, a search returning
the three candidates above. -/
def c2Env : MatchEnv :=
  { mappings := [], fetchById := fun _ => none,
    searchTracks := fun _ =>
      some [⟨11, "far", 150⟩, ⟨12, "qualifying-A", 198⟩, ⟨13, "qualifying-B", 199⟩] }

/-- Matcher environment whose search result has no qualifying candidate. -/
def c2EnvNoFit : MatchEnv :=
  { mappings := [], fetchById := fun _ => none,
    searchTracks := fun _ => some [⟨11, "far", 150⟩, ⟨14, "also far", 260⟩] }

/-- Matcher environment whose search call raises. -/
def c2EnvRaise : MatchEnv :=
  { mappings := [], fetchById := fun _ => none, searchTracks := fun _ => none }

/-- Matcher environment for the C3 witness: a persisted mapping sp-a to 77
whose fetch succeeds, and a search oracle that would answer differently. -/
def c3Env : MatchEnv :=
  { mappings := [("sp-a", 77)],
    fetchById := fun n => if n = 77 then some ⟨77, "mapped", 321⟩ else none,
    searchTracks := fun _ => some [⟨12, "search hit", 200⟩] }

/-- Matcher environment for the C3 witness with a stale mapping: the mapped
id 78 fails to fetch and the search phase answers instead. -/
def c3EnvStale : MatchEnv :=
  { mappings := [("sp-a", 78)],
    fetchById := fun _ => none,
    searchTracks := fun _ => some [⟨12, "search hit", 200⟩] }

/-- A quiescent playback environment for witnesses that never reach it. -/
def wPlayEnv : PlayEnv :=
  { session := ⟨true, true⟩, hasAttr := fun _ => false, preferred := "lossless",
    resolveUrl := fun _ => none, playCrash := false }

/-- A tick input whose snapshot fetch raises, over the C3 environment. -/
def c3Inp : TickInput :=
  { fetch := none, playerAtChange := ⟨false, 0, 0⟩, playerAtMonitor := ⟨false, 0, 0⟩,
    matchEnv := c3Env, playEnv := wPlayEnv, favSucceeds := true }

/-- The `SyncManager.__init__` state (lines 250-262): nothing current,
mute on, auto-favorite off, running, with the Spotify client connected. -/
def initState : SyncState :=
  { currentSpotifyTrack := none, currentTidalTrack := none,
    status := "Initializing...", isPausedWaiting := false,
    currentImageUrl := none, muteSpotify := true, autoFavorite := false,
    currentSongFavorited := false, waitingForUserSelection := false,
    running := true, spConnected := true }

/-- A playback environment whose session is expired and whose refresh
re-check fails. -/
def c4EnvExpired : PlayEnv :=
  { session := ⟨false, false⟩, hasAttr := fun _ => true, preferred := "lossless",
    resolveUrl := fun _ => some "http:u", playCrash := false }

/-- A playback environment with a valid session. -/
def c4EnvValid : PlayEnv :=
  { session := ⟨true, false⟩, hasAttr := fun _ => true, preferred := "lossless",
    resolveUrl := fun _ => some "http:u", playCrash := false }

/-- A Tidal track used as concrete input by several witnesses. -/
def wTrack : TidalTrack := ⟨42, "Track", 200⟩

/-- A playback environment for the C5 witness: all five tiers exist, the top
tier fails to resolve, the second resolves. -/
def c5Env : PlayEnv :=
  { session := ⟨true, true⟩, hasAttr := fun _ => true, preferred := "lossless",
    resolveUrl := fun q => if q = "high_lossless" then some "http:u2" else none,
    playCrash := false }

/-- A playback environment for the C5 witness in which every tier fails. -/
def c5EnvAllFail : PlayEnv :=
  { session := ⟨true, true⟩, hasAttr := fun _ => true, preferred := "lossless",
    resolveUrl := fun _ => none, playCrash := false }

/-- Source track A held by the engine in the C6 scenario. -/
def c6TrackA : SpTrack :=
  { id := "a", name := "A", artistName := "Art", durationMs := 200000,
    imageUrl := none }

/-- Source track B reported by the snapshot in the C6 scenario. -/
def c6TrackB : SpTrack :=
  { id := "b", name := "B", artistName := "Art", durationMs := 180000,
    imageUrl := none }

/-- Engine state holding track A in the C6 scenario. -/
def c6State : SyncState :=
  { initState with currentSpotifyTrack := some c6TrackA }

/-- Tick input for the C6 counterexample: the snapshot switched to track B
while the bridge is playing with exactly 0 ms remaining (VLC time equals
VLC duration, e.g. a just-finished or length-unknown report). -/
def c6Inp : TickInput :=
  { fetch := some { item := some c6TrackB, isPlaying := true, progressMs := 0,
                    volumePercent := some 0 },
    playerAtChange := ⟨true, 100, 100⟩, playerAtMonitor := ⟨true, 100, 100⟩,
    matchEnv := c2EnvRaise, playEnv := wPlayEnv, favSucceeds := true }

/-- Tick input for the C6 witness: snapshot switched to track B while the
bridge is playing with 3000 ms remaining (inside the guard window). -/
def c6InpFlicker : TickInput :=
  { fetch := some { item := some c6TrackB, isPlaying := true, progressMs := 0,
                    volumePercent := some 0 },
    playerAtChange := ⟨true, 100, 3100⟩, playerAtMonitor := ⟨true, 100, 3100⟩,
    matchEnv := c2EnvRaise, playEnv := wPlayEnv, favSucceeds := true }

/-- An engine state in which `login` has not (yet) succeeded: `self.sp` is
still `None`. Shutdown from here cannot and does not pause Spotify. -/
def c9StateNoSp : SyncState :=
  { initState with spConnected := false }

/-- A manual environment for the C10 witness. -/
def c10Env : ManualEnv :=
  { playEnv := wPlayEnv, currentPlaybackQuery := some true }

/-- Running flag for the C7 witness: cleared from iteration 2 on. -/
def c7Running : Nat → Bool := fun j => decide (j < 2)

/-- Tick outcomes for the C7 witness: the first tick raises. -/
def c7Ticks : Nat → TickOutcome :=
  fun j => if j = 0 then TickOutcome.raise "boom" else TickOutcome.ok

/-- Tick outcomes that never raise, for the exit-independence part. -/
def c7TicksOk : Nat → TickOutcome := fun _ => TickOutcome.ok

/-- Repeated ticks of the control loop body (`sync_logic` once per period),
threading the engine state and concatenating the issued commands. -/
def run_ticks (inps : List TickInput) (s : SyncState) : SyncState × List Cmd :=
  match inps with
  | [] => (s, [])
  | inp :: rest =>
    let r := sync_logic inp s
    let r2 := run_ticks rest r.1
    (r2.1, r.2 ++ r2.2)

/-- Number of `add_favorite` calls in a command list. -/
def count_fav (cmds : List Cmd) : Nat :=
  cmds.countP fun c => match c with
    | Cmd.tidalAddFavorite _ => true
    | _ => false

/-- 1 while the current track may still be favorited, 0 once it has been. -/
def fav_budget (s : SyncState) : Nat :=
  if s.currentSongFavorited then 0 else 1

/-- Steady snapshot for the C8 witness: still on track A, playing. -/
def c8Pb : SpPlayback :=
  { item := some c6TrackA, isPlaying := true, progressMs := 10000,
    volumePercent := some 0 }

/-- Steady tick input for the C8 witness: same track, bridge playing at 95%
of its duration, favorite call succeeding. -/
def c8Inp : TickInput :=
  { fetch := some c8Pb, playerAtChange := ⟨true, 95000, 100000⟩,
    playerAtMonitor := ⟨true, 95000, 100000⟩,
    matchEnv := c2EnvRaise, playEnv := wPlayEnv, favSucceeds := true }

/-- Engine state for the C8 witness: track A current, a Tidal track active,
auto-favorite enabled, not yet favorited. -/
def c8State : SyncState :=
  { initState with currentSpotifyTrack := some c6TrackA,
                   currentTidalTrack := some wTrack, autoFavorite := true }

/-! ## Theorems -/

/-- Every command an `attempt_play_tidal` call can issue is a player stop, a
Spotify start/seek, or a play-URL command. -/
lemma attempt_play_cmds_shape (env : PlayEnv) (t : TidalTrack) (p : Bool) :
    ∀ c ∈ (attempt_play_tidal env t p).cmds,
      c = Cmd.playerStop ∨ c = Cmd.spStartPlayback ∨ c = Cmd.spSeekStart ∨
        ∃ u, c = Cmd.playerPlayUrl u := by
  intro c hc
  unfold attempt_play_tidal at hc
  rcases hs : (check_and_refresh_session env.session).1 with _ | _
  · simp [hs] at hc
  · rcases h2 : (try_qualities env.resolveUrl
        (qualities_to_try env.hasAttr env.preferred)).2 with _ | ⟨q, u⟩
    · simp [hs, h2] at hc
      subst hc; exact Or.inl rfl
    · rcases hcr : env.playCrash with _ | _ <;> rcases hp : p with _ | _ <;>
        simp [hs, h2, hcr, hp] at hc <;>
        rcases hc with hc | hc | hc <;> simp_all

/-- Membership in a conditional singleton command list forces the element. -/
lemma mem_ite_singleton {p : Prop} [Decidable p] {c x : Cmd}
    (h : c ∈ (if p then [x] else ([] : List Cmd))) : c = x := by
  split at h <;> simp_all

/-- The mirroring step issues at most one player pause/resume command. -/
lemma mirror_step_cmds_shape (pb : SpPlayback) (obs : PlayerObs) (pw : Bool) :
    (mirror_step pb obs pw).2 = [] ∨ (mirror_step pb obs pw).2 = [Cmd.playerPause] ∨
      (mirror_step pb obs pw).2 = [Cmd.playerResume] := by
  unfold mirror_step
  split_ifs <;> simp

/-- Every command the playback monitor can issue is a player pause/resume, a
favorite for the current Tidal track, a Spotify pause, or a Spotify skip. -/
lemma monitor_cmds_shape (pb : SpPlayback) (spTrack : SpTrack) (obs : PlayerObs)
    (aF fv pw fs : Bool) (tidal : TidalTrack) :
    ∀ c ∈ (playback_monitor pb spTrack obs aF fv pw fs tidal).cmds,
      c = Cmd.playerPause ∨ c = Cmd.playerResume ∨
        c = Cmd.tidalAddFavorite tidal.id ∨ c = Cmd.spPausePlayback ∨
        c = Cmd.spNextTrack := by
  intro c hc
  unfold playback_monitor at hc
  simp only [List.mem_append] at hc
  rcases hc with ((h1 | h2) | h3) | h4
  · rcases mirror_step_cmds_shape pb obs pw with h | h | h <;> rw [h] at h1 <;>
      simp at h1 <;> simp [h1]
  · exact Or.inr (Or.inr (Or.inl (mem_ite_singleton h2)))
  · exact Or.inr (Or.inr (Or.inr (Or.inl (mem_ite_singleton h3))))
  · exact Or.inr (Or.inr (Or.inr (Or.inr (mem_ite_singleton h4))))

/-- Every command the track-change block can issue is a player stop, a
Spotify start/seek, a play-URL command, or the manual-match notification. -/
lemma track_change_cmds_shape (inp : TickInput) (s : SyncState) (pb : SpPlayback)
    (spTrack : SpTrack) :
    ∀ c ∈ (track_change_step inp s pb spTrack).2,
      c = Cmd.playerStop ∨ c = Cmd.spStartPlayback ∨ c = Cmd.spSeekStart ∨
        (∃ u, c = Cmd.playerPlayUrl u) ∨ c = Cmd.requestManualMatch spTrack.id := by
  intro c hc
  unfold track_change_step at hc
  rcases hm : search_tidal_match inp.matchEnv spTrack with _ | t
  · simp [hm] at hc
    rcases hc with hc | hc
    · simp [hc]
    · simp [hc]
  · by_cases ho : (attempt_play_tidal inp.playEnv t pb.isPlaying).ok
    · simp [hm, ho] at hc
      rcases attempt_play_cmds_shape inp.playEnv t pb.isPlaying c hc with
        h | h | h | h <;> simp [h]
    · simp [hm, ho] at hc
      rcases attempt_play_cmds_shape inp.playEnv t pb.isPlaying c hc with
        h | h | h | h <;> simp [h]

/-- The monitor section adds no mapping-store write to the accumulator. -/
lemma monitor_after_no_save (inp : TickInput) (s : SyncState) (pb : SpPlayback)
    (spTrack : SpTrack) (acc : List Cmd) (a : String) (b : Nat)
    (h : Cmd.saveMapping a b ∉ acc) :
    Cmd.saveMapping a b ∉ (monitor_after inp s pb spTrack acc).2 := by
  unfold monitor_after
  rcases s.currentTidalTrack with _ | tt
  · simpa using h
  · by_cases hw : s.waitingForUserSelection
    · simp [hw]
      exact fun hx => h hx
    · simp [hw]
      refine ⟨h, ?_⟩
      intro hc
      rcases monitor_cmds_shape pb spTrack inp.playerAtMonitor s.autoFavorite
          s.currentSongFavorited s.isPausedWaiting inp.favSucceeds tt _ hc with
          hx | hx | hx | hx | hx <;> simp at hx

/-- A full tick never writes to the mapping store: `sync_logic` contains no
`save_mapping` call (only the user-driven `manual_map_track` does). -/
lemma sync_logic_no_save (inp : TickInput) (s : SyncState) (a : String) (b : Nat) :
    Cmd.saveMapping a b ∉ (sync_logic inp s).2 := by
  rcases hf : inp.fetch with _ | pb
  · simp [sync_logic, hf]
  · rcases hi : pb.item with _ | spTrack
    · simp [sync_logic, hf, hi]
    · simp only [sync_logic, hf, hi]
      split
      · split
        · simp only []
          split <;> simp
        · apply monitor_after_no_save
          intro hc
          simp only [List.mem_append] at hc
          rcases hc with hc | hc
          · revert hc
            split <;> simp
          · rcases track_change_cmds_shape inp _ pb spTrack _ hc with
              hx | hx | hx | ⟨u, hx⟩ | hx <;> simp at hx
      · apply monitor_after_no_save
        intro hc
        revert hc
        split <;> simp

/-- C2: `search_tidal_match` is first-fit over the search results: with no
persisted mapping, for a result list whose first candidate misses the 5000 ms
duration window and whose second hits it, the second is selected regardless
of the third (in particular even when the third is numerically closer); when
no candidate qualifies, or the search call fails, the resolution is NoMatch
(`none`). -/
theorem matcher_first_fit_policy :
    (∀ (env : MatchEnv) (sp : SpTrack) (t1 t2 t3 : TidalTrack),
      env.mappings.lookup sp.id = none →
      env.searchTracks (match_query sp) = some [t1, t2, t3] →
      duration_matches sp.durationMs t1 = false →
      duration_matches sp.durationMs t2 = true →
      search_tidal_match env sp = some t2) ∧
    (∀ (env : MatchEnv) (sp : SpTrack) (results : List TidalTrack),
      env.mappings.lookup sp.id = none →
      env.searchTracks (match_query sp) = some results →
      (∀ t ∈ results, duration_matches sp.durationMs t = false) →
      search_tidal_match env sp = none) ∧
    (∀ (env : MatchEnv) (sp : SpTrack),
      env.mappings.lookup sp.id = none →
      env.searchTracks (match_query sp) = none →
      search_tidal_match env sp = none) := by
  refine ⟨?_, ?_, ?_⟩
  · intro env sp t1 t2 t3 hmap hsearch h1 h2
    simp [search_tidal_match, hmap, search_phase, hsearch, List.find?, h1, h2]
  · intro env sp results hmap hsearch hall
    simp [search_tidal_match, hmap, search_phase, hsearch, List.find?_eq_none]
    intro t ht
    simp [hall t ht]
  · intro env sp hmap hsearch
    simp [search_tidal_match, hmap, search_phase, hsearch]

/-- Witness for C2 at the spec scenario: the 198 s candidate wins although
the 199 s one is closer; a fit-free result list and a raised search both give
NoMatch. -/
theorem matcher_first_fit_policy_witness :
    search_tidal_match c2Env c2Sp = some ⟨12, "qualifying-A", 198⟩ ∧
    search_tidal_match c2EnvNoFit c2Sp = none ∧
    search_tidal_match c2EnvRaise c2Sp = none :=
  ⟨matcher_first_fit_policy.1 c2Env c2Sp _ _ _ rfl rfl (by decide) (by decide),
   matcher_first_fit_policy.2.1 c2EnvNoFit c2Sp _ rfl rfl (by decide),
   matcher_first_fit_policy.2.2 c2EnvRaise c2Sp rfl rfl⟩

/-- C3: a persisted mapping for the source id bypasses search unconditionally
(whatever the search oracle would answer, the fetched mapped track is the
result); when the mapped id fails to fetch, that invocation falls through to
the plain search phase; and no tick ever writes to (or removes from) the
mapping store - `sync_logic` issues no `save_mapping` command. -/
theorem mapping_bypasses_search :
    (∀ (env : MatchEnv) (sp : SpTrack) (tid : Nat) (t : TidalTrack),
      env.mappings.lookup sp.id = some tid →
      env.fetchById tid = some t →
      search_tidal_match env sp = some t) ∧
    (∀ (env : MatchEnv) (sp : SpTrack) (tid : Nat),
      env.mappings.lookup sp.id = some tid →
      env.fetchById tid = none →
      search_tidal_match env sp = search_phase env sp) ∧
    (∀ (inp : TickInput) (s : SyncState) (a : String) (b : Nat),
      Cmd.saveMapping a b ∉ (sync_logic inp s).2) := by
  refine ⟨?_, ?_, fun inp s a b => sync_logic_no_save inp s a b⟩
  · intro env sp tid t hmap hfetch
    simp [search_tidal_match, hmap, hfetch]
  · intro env sp tid hmap hfetch
    simp [search_tidal_match, hmap, hfetch]

/-- Witness for C3: the mapped track 77 is returned even though search would
have answered a different track; with the stale mapping the result is the
search-phase result for this invocation; and a concrete tick writes no
mapping. -/
theorem mapping_bypasses_search_witness :
    search_tidal_match c3Env c2Sp = some ⟨77, "mapped", 321⟩ ∧
    search_tidal_match c3EnvStale c2Sp = search_phase c3EnvStale c2Sp ∧
    Cmd.saveMapping "sp-a" 77 ∉ (sync_logic c3Inp initState).2 :=
  ⟨mapping_bypasses_search.1 c3Env c2Sp 77 _ rfl rfl,
   mapping_bypasses_search.2.1 c3EnvStale c2Sp 78 rfl rfl,
   mapping_bypasses_search.2.2 c3Inp initState "sp-a" 77⟩

/-- C4: before any stream resolution `attempt_play_tidal` consults the
session guard; an invalid session triggers exactly one refresh-and-recheck
(two `check_login` calls in total), and when the re-check also fails the
call aborts with the "Session Expired" status, returns False, issues no
command at all (in particular no playback attempt), and its outcome does not
depend on the stream resolver; a valid first check consumes a single
`check_login` call. -/
theorem session_guard_aborts_resolution :
    (∀ (env : PlayEnv) (track : TidalTrack) (spP : Bool),
      env.session.firstCheck = false → env.session.recheckAfterRefresh = false →
      (attempt_play_tidal env track spP).ok = false ∧
      (attempt_play_tidal env track spP).status = some "Session Expired" ∧
      (attempt_play_tidal env track spP).cmds = [] ∧
      (attempt_play_tidal env track spP).sessionChecks = 2) ∧
    (∀ (env : PlayEnv) (r : String → Option String) (track : TidalTrack) (spP : Bool),
      env.session.firstCheck = false → env.session.recheckAfterRefresh = false →
      attempt_play_tidal { env with resolveUrl := r } track spP =
        attempt_play_tidal env track spP) ∧
    (∀ (env : PlayEnv) (track : TidalTrack) (spP : Bool),
      env.session.firstCheck = true →
      (attempt_play_tidal env track spP).sessionChecks = 1) := by
  refine ⟨?_, ?_, ?_⟩
  · intro env track spP h1 h2
    simp [attempt_play_tidal, check_and_refresh_session, h1, h2]
  · intro env r track spP h1 h2
    simp [attempt_play_tidal, check_and_refresh_session, h1, h2]
  · intro env track spP h
    simp only [attempt_play_tidal, check_and_refresh_session, h, if_true]
    split
    · simp
    · split
      · simp
      · split <;> simp

/-- Witness for C4: the expired environment aborts with Session Expired and
no commands, regardless of the (here succeeding) resolver; the valid one
performs a single check. -/
theorem session_guard_aborts_resolution_witness :
    ((attempt_play_tidal c4EnvExpired wTrack true).ok = false ∧
     (attempt_play_tidal c4EnvExpired wTrack true).status = some "Session Expired" ∧
     (attempt_play_tidal c4EnvExpired wTrack true).cmds = [] ∧
     (attempt_play_tidal c4EnvExpired wTrack true).sessionChecks = 2) ∧
    attempt_play_tidal { c4EnvExpired with resolveUrl := fun _ => none } wTrack true =
      attempt_play_tidal c4EnvExpired wTrack true ∧
    (attempt_play_tidal c4EnvValid wTrack true).sessionChecks = 1 :=
  ⟨session_guard_aborts_resolution.1 c4EnvExpired wTrack true rfl rfl,
   session_guard_aborts_resolution.2.1 c4EnvExpired (fun _ => none) wTrack true rfl rfl,
   session_guard_aborts_resolution.2.2 c4EnvValid wTrack true rfl⟩

/-- When every tier fails to resolve, the whole tier list is attempted and
no URL is found. -/
lemma try_qualities_all_fail (r : String → Option String) (l : List String)
    (h : ∀ q ∈ l, r q = none) : try_qualities r l = (l, none) := by
  induction l with
  | nil => rfl
  | cons q rest ih =>
    simp [try_qualities, h q (by simp), ih (fun x hx => h x (by simp [hx]))]

/-- When the tiers before `q` fail and `q` resolves, exactly the tiers up to
and including `q` are attempted and `q`'s URL is returned. -/
lemma try_qualities_first_success (r : String → Option String) (pre post : List String)
    (q u : String) (hpre : ∀ p ∈ pre, r p = none) (hq : r q = some u) :
    try_qualities r (pre ++ q :: post) = (pre ++ [q], some (q, u)) := by
  induction pre with
  | nil => simp [try_qualities, hq]
  | cons p rest ih =>
    simp [try_qualities, hpre p (by simp),
      ih (fun x hx => hpre x (by simp [hx]))]

/-- The attempted tiers are always an initial segment of the tier list. -/
lemma try_qualities_attempted_take (r : String → Option String) (l : List String) :
    ∃ k, (try_qualities r l).1 = l.take k := by
  induction l with
  | nil => exact ⟨0, rfl⟩
  | cons q rest ih =>
    rcases hq : r q with _ | u
    · rcases ih with ⟨k, hk⟩
      exact ⟨k + 1, by simp [try_qualities, hq, hk]⟩
    · exact ⟨1, by simp [try_qualities, hq]⟩

/-- C5: with a usable session, `attempt_play_tidal` walks the quality tiers
in the fixed descending-preference order of `qualities_to_try` (a value of
the session-level constants `hasAttr`/`preferred` only, hence the same list
on every call of the session): when every tier fails to resolve it returns
False with the player stopped, having attempted the whole list; when the
tiers before `q` fail and `q` resolves, the resolved URL is played and only
the tiers up to and including `q` are attempted (no lower tier is tried);
and the attempted tiers are always an initial segment of that static list. -/
theorem quality_fallback_policy :
    (∀ (env : PlayEnv) (track : TidalTrack) (spP : Bool),
      (check_and_refresh_session env.session).1 = true →
      (∀ q ∈ qualities_to_try env.hasAttr env.preferred, env.resolveUrl q = none) →
      (attempt_play_tidal env track spP).ok = false ∧
      Cmd.playerStop ∈ (attempt_play_tidal env track spP).cmds ∧
      (attempt_play_tidal env track spP).attemptedQualities =
        qualities_to_try env.hasAttr env.preferred) ∧
    (∀ (env : PlayEnv) (track : TidalTrack) (spP : Bool)
        (pre post : List String) (q u : String),
      (check_and_refresh_session env.session).1 = true →
      qualities_to_try env.hasAttr env.preferred = pre ++ q :: post →
      (∀ p ∈ pre, env.resolveUrl p = none) →
      env.resolveUrl q = some u →
      Cmd.playerPlayUrl u ∈ (attempt_play_tidal env track spP).cmds ∧
      (attempt_play_tidal env track spP).attemptedQualities = pre ++ [q]) ∧
    (∀ (env : PlayEnv) (track : TidalTrack) (spP : Bool),
      ∃ k, (attempt_play_tidal env track spP).attemptedQualities =
        (qualities_to_try env.hasAttr env.preferred).take k) := by
  refine ⟨?_, ?_, ?_⟩
  · intro env track spP hs hall
    have ht := try_qualities_all_fail env.resolveUrl
      (qualities_to_try env.hasAttr env.preferred) hall
    simp [attempt_play_tidal, hs, ht]
  · intro env track spP pre post q u hs hq hpre hru
    have ht := try_qualities_first_success env.resolveUrl pre post q u hpre hru
    rw [← hq] at ht
    rcases hcr : env.playCrash with _ | _ <;>
      simp [attempt_play_tidal, hs, ht, hcr]
  · intro env track spP
    by_cases hs : (check_and_refresh_session env.session).1
    · rcases try_qualities_attempted_take env.resolveUrl
        (qualities_to_try env.hasAttr env.preferred) with ⟨k, hk⟩
      refine ⟨k, ?_⟩
      unfold attempt_play_tidal
      simp only [hs]
      split
      · simp_all
      · split
        · simpa using hk
        · split <;> simpa using hk
    · refine ⟨0, ?_⟩
      unfold attempt_play_tidal
      simp only [hs]
      simp_all

/-- Witness for C5: with all tiers failing the call reports failure with the
player stopped after attempting all five tiers; with the second tier
resolving, its URL is played and only the first two tiers were attempted. -/
theorem quality_fallback_policy_witness :
    ((attempt_play_tidal c5EnvAllFail wTrack true).ok = false ∧
     Cmd.playerStop ∈ (attempt_play_tidal c5EnvAllFail wTrack true).cmds ∧
     (attempt_play_tidal c5EnvAllFail wTrack true).attemptedQualities =
       qualities_to_try c5EnvAllFail.hasAttr c5EnvAllFail.preferred) ∧
    (Cmd.playerPlayUrl "http:u2" ∈ (attempt_play_tidal c5Env wTrack true).cmds ∧
     (attempt_play_tidal c5Env wTrack true).attemptedQualities =
       ["hi_res_lossless", "high_lossless"]) ∧
    (∃ k, (attempt_play_tidal c5Env wTrack false).attemptedQualities =
       (qualities_to_try c5Env.hasAttr c5Env.preferred).take k) :=
  ⟨quality_fallback_policy.1 c5EnvAllFail wTrack true rfl (by decide),
   quality_fallback_policy.2.1 c5Env wTrack true ["hi_res_lossless"]
     ["lossless", "high", "low"] "high_lossless" "http:u2" rfl rfl
     (by decide) (by decide),
   quality_fallback_policy.2.2 c5Env wTrack false⟩

/-- Membership in a conditional singleton also certifies the condition. -/
lemma mem_ite_singleton_cond {p : Prop} [Decidable p] {c x : Cmd}
    (h : c ∈ (if p then [x] else ([] : List Cmd))) : p ∧ c = x := by
  split at h <;> simp_all

/-- A true condition puts the singleton element into the conditional list. -/
lemma mem_ite_singleton_self {p : Prop} [Decidable p] {x : Cmd} (hp : p) :
    x ∈ (if p then [x] else ([] : List Cmd)) := by
  simp [hp]

/-- The activation guard unfolded to its arithmetic reading. -/
lemma hold_activates_iff (pb : SpPlayback) (spTrack : SpTrack) (obs : PlayerObs)
    (pw : Bool) :
    hold_activates pb spTrack obs pw = true ↔
      (time_left_sp pb spTrack < 3000 ∧ time_left_tidal obs > 5000 ∧ pw = false) := by
  cases pw <;> simp [hold_activates, and_assoc]

/-- The release guard unfolded to its arithmetic reading: the hold is on
(carried over, or activated earlier in the same tick) and the Tidal side is
within 1000 ms of its end or the player is no longer playing. -/
lemma hold_releases_iff (pb : SpPlayback) (spTrack : SpTrack) (obs : PlayerObs)
    (pw : Bool) :
    hold_releases pb spTrack obs pw = true ↔
      ((pw = true ∨ (time_left_sp pb spTrack < 3000 ∧ time_left_tidal obs > 5000)) ∧
        (time_left_tidal obs < 1000 ∨ (mirror_step pb obs pw).1 = false)) := by
  cases pw <;>
    simp [hold_releases, hold_activates, and_assoc, Bool.not_eq_true]

/-- C1: in the monitored portion of a tick (target track active, not
awaiting a manual match), the source transport is paused (buffering hold
activated) iff `sourceRemaining < 3000` and `targetRemaining > 5000` and the
hold was not already active; the source transport is skipped to its next
track iff the hold is active (carried over, or just activated this tick) and
`targetRemaining < 1000` or the bridge is not playing; and the
`isPausedWaitingForBuffer` flag ends the tick set iff the hold is active and
that release condition does not hold. -/
theorem buffering_hold_protocol (pb : SpPlayback) (spTrack : SpTrack)
    (obs : PlayerObs) (aF fv pw fs : Bool) (tidal : TidalTrack) :
    (Cmd.spPausePlayback ∈
        (playback_monitor pb spTrack obs aF fv pw fs tidal).cmds ↔
      (time_left_sp pb spTrack < 3000 ∧ time_left_tidal obs > 5000 ∧ pw = false)) ∧
    (Cmd.spNextTrack ∈
        (playback_monitor pb spTrack obs aF fv pw fs tidal).cmds ↔
      ((pw = true ∨ (time_left_sp pb spTrack < 3000 ∧ time_left_tidal obs > 5000)) ∧
        (time_left_tidal obs < 1000 ∨ (mirror_step pb obs pw).1 = false))) ∧
    ((playback_monitor pb spTrack obs aF fv pw fs tidal).pausedWaiting = true ↔
      ((pw = true ∨ (time_left_sp pb spTrack < 3000 ∧ time_left_tidal obs > 5000)) ∧
        ¬(time_left_tidal obs < 1000 ∨ (mirror_step pb obs pw).1 = false))) := by
  have hm := mirror_step_cmds_shape pb obs pw
  refine ⟨?_, ?_, ?_⟩
  · rw [← hold_activates_iff]
    unfold playback_monitor
    simp only [List.mem_append]
    constructor
    · rintro (((h | h) | h) | h)
      · exfalso
        rcases hm with h' | h' | h' <;> rw [h'] at h <;> simp at h
      · exact absurd (mem_ite_singleton_cond h).2 (by simp)
      · exact (mem_ite_singleton_cond h).1
      · exact absurd (mem_ite_singleton_cond h).2 (by simp)
    · intro h
      exact Or.inl (Or.inr (mem_ite_singleton_self h))
  · rw [← hold_releases_iff]
    unfold playback_monitor
    simp only [List.mem_append]
    constructor
    · rintro (((h | h) | h) | h)
      · exfalso
        rcases hm with h' | h' | h' <;> rw [h'] at h <;> simp at h
      · exact absurd (mem_ite_singleton_cond h).2 (by simp)
      · exact absurd (mem_ite_singleton_cond h).2 (by simp)
      · exact (mem_ite_singleton_cond h).1
    · intro h
      exact Or.inr (mem_ite_singleton_self h)
  · unfold playback_monitor
    simp only []
    by_cases hrel : hold_releases pb spTrack obs pw = true
    · have hr := (hold_releases_iff pb spTrack obs pw).mp hrel
      simp [hrel, hr.2]
    · rw [if_neg hrel]
      rw [hold_releases_iff] at hrel
      have hact := hold_activates_iff pb spTrack obs pw
      cases pw <;> simp_all

/-- The track-change block always commits the snapshot track. -/
lemma track_change_commits (inp : TickInput) (s : SyncState) (pb : SpPlayback)
    (spTrack : SpTrack) :
    (track_change_step inp s pb spTrack).1.currentSpotifyTrack = some spTrack := by
  unfold track_change_step
  rcases hm : search_tidal_match inp.matchEnv spTrack with _ | t
  · simp [hm]
  · simp only [hm]
    split <;> simp

/-- The monitor section leaves the committed Spotify track untouched. -/
lemma monitor_after_spotify_track (inp : TickInput) (s : SyncState)
    (pb : SpPlayback) (spTrack : SpTrack) (acc : List Cmd) :
    (monitor_after inp s pb spTrack acc).1.currentSpotifyTrack =
      s.currentSpotifyTrack := by
  unfold monitor_after
  rcases h : s.currentTidalTrack with _ | tt
  · simp [h]
  · simp only [h]
    split <;> simp

/-- Counterexample to C6 as stated: the bridge is playing with 0 ms (hence
fewer than 5000 ms) remaining when the snapshot id differs, yet the switch
is NOT suppressed - the tick commits the new track. The guard at line 502
requires `0 < vlc_left`, which this input fails. -/
theorem anti_flicker_guard_counterexample :
    c6Inp.playerAtChange.isPlaying = true ∧
    c6Inp.playerAtChange.duration - c6Inp.playerAtChange.time = 0 ∧
    c6Inp.playerAtChange.duration - c6Inp.playerAtChange.time < 5000 ∧
    c6State.currentSpotifyTrack = some c6TrackA ∧
    c6TrackB.id ≠ c6TrackA.id ∧
    (sync_logic c6Inp c6State).1.currentSpotifyTrack = some c6TrackB := by
  refine ⟨rfl, by decide, by decide, rfl, by decide, ?_⟩
  decide

/-- C6 amended: on a tick whose snapshot id differs from the held track, the
switch is suppressed (state changed only in the album-art field, commands
limited to the mute enforcement, so no commit, no match, no playback
attempt) iff the bridge is playing and its remaining time is strictly
between 0 and 5000 ms; otherwise - including at 0 or negative remaining
time - the new track is committed this tick. -/
theorem anti_flicker_guard_amended (inp : TickInput) (s : SyncState)
    (pb : SpPlayback) (spTrack : SpTrack)
    (hf : inp.fetch = some pb) (hi : pb.item = some spTrack)
    (hch : s.currentSpotifyTrack.all (fun t => t.id != spTrack.id) = true) :
    ((inp.playerAtChange.isPlaying = true ∧
        0 < inp.playerAtChange.duration - inp.playerAtChange.time ∧
        inp.playerAtChange.duration - inp.playerAtChange.time < 5000) →
      (sync_logic inp s).1 = { s with currentImageUrl := spTrack.imageUrl } ∧
      (sync_logic inp s).2 =
        (if s.muteSpotify ∧ pb.volumePercent ≠ some 0
         then [Cmd.spVolume0] else [])) ∧
    (¬(inp.playerAtChange.isPlaying = true ∧
        0 < inp.playerAtChange.duration - inp.playerAtChange.time ∧
        inp.playerAtChange.duration - inp.playerAtChange.time < 5000) →
      (sync_logic inp s).1.currentSpotifyTrack = some spTrack) := by
  constructor
  · intro hguard
    simp only [sync_logic, hf, hi, hch, if_true]
    rw [if_pos]
    · exact ⟨rfl, rfl⟩
    · simpa using hguard
  · intro hguard
    simp only [sync_logic, hf, hi, hch, if_true]
    rw [if_neg]
    · rw [monitor_after_spotify_track, track_change_commits]
    · simpa using hguard

/-- Witness for the amended C6: with 3000 ms remaining the switch is
suppressed (only the album-art field changes and only the mute command could
be issued); with 0 ms remaining the new track is committed. -/
theorem anti_flicker_guard_amended_witness :
    ((sync_logic c6InpFlicker c6State).1 =
        { c6State with currentImageUrl := c6TrackB.imageUrl } ∧
      (sync_logic c6InpFlicker c6State).2 =
        (if c6State.muteSpotify ∧ (some 0 : Option Int) ≠ some 0
         then [Cmd.spVolume0] else [])) ∧
    (sync_logic c6Inp c6State).1.currentSpotifyTrack = some c6TrackB :=
  ⟨(anti_flicker_guard_amended c6InpFlicker c6State _ c6TrackB rfl rfl
      (by decide)).1 (by decide),
   (anti_flicker_guard_amended c6Inp c6State _ c6TrackB rfl rfl
      (by decide)).2 (by decide)⟩

/-- Counterexample to C9 as stated: calling shutdown in the pre-login state
(`self.sp is None`, line 464's guard false) issues no source-pause command,
while the bridge-stop is still issued; so shutdown does NOT always issue
both commands from every engine state. -/
theorem shutdown_counterexample :
    Cmd.spPausePlayback ∉ (shutdown false c9StateNoSp).2 ∧
    Cmd.playerStop ∈ (shutdown false c9StateNoSp).2 := by
  constructor <;> decide

/-- C9 amended: shutdown always clears the running flag and always issues
the bridge-stop; it issues the source-pause exactly when the Spotify client
exists (which holds in every state the tick loop runs in, since the loop
starts only after a successful login); and because the two calls sit in
separate try/except blocks, the issued commands do not depend on whether
the source-pause call raises - the bridge-stop survives a failing pause. -/
theorem shutdown_always_stops_bridge (pauseRaises : Bool) (s : SyncState) :
    (shutdown pauseRaises s).1.running = false ∧
    Cmd.playerStop ∈ (shutdown pauseRaises s).2 ∧
    (s.spConnected = true → Cmd.spPausePlayback ∈ (shutdown pauseRaises s).2) ∧
    (shutdown pauseRaises s).2 = (shutdown true s).2 := by
  refine ⟨rfl, ?_, ?_, rfl⟩
  · unfold shutdown
    simp
  · intro h
    unfold shutdown
    simp [h]

/-- Witness for the amended C9: from the post-login initial state, a
shutdown whose Spotify pause call raises still stops the bridge, and issued
both commands. -/
theorem shutdown_always_stops_bridge_witness :
    (shutdown true initState).1.running = false ∧
    Cmd.playerStop ∈ (shutdown true initState).2 ∧
    Cmd.spPausePlayback ∈ (shutdown true initState).2 :=
  ⟨(shutdown_always_stops_bridge true initState).1,
   (shutdown_always_stops_bridge true initState).2.1,
   (shutdown_always_stops_bridge true initState).2.2.1 rfl⟩

/-- C10: invoking the manual-override entry point while no current source
track is set is a complete no-op - the state (mapping included) is returned
unchanged and no command of any kind (no `save_mapping`, no playback
attempt, no error dialog) is issued. -/
theorem manual_map_track_noop (env : ManualEnv) (s : SyncState) (t : TidalTrack)
    (h : s.currentSpotifyTrack = none) :
    manual_map_track env s t = (s, []) := by
  unfold manual_map_track
  simp [h]

/-- Witness for C10 at the freshly initialized state (no current track). -/
theorem manual_map_track_noop_witness :
    manual_map_track c10Env initState wTrack = (initState, []) :=
  manual_map_track_noop c10Env initState wTrack rfl

/-- C7: the control loop's exit is governed solely by the running flag. If
the loop exits at iteration `n`, the flag was false there and true at every
earlier iteration since entry; the exit point does not depend on the tick
outcomes at all (a raising tick cannot terminate it); and a tick that raises
while the flag holds just logs its message and continues with the next
iteration. -/
theorem loop_survives_tick_failures :
    (∀ (ticks : Nat → TickOutcome) (runningAt : Nat → Bool) (fuel i : Nat)
        (log : List String) (n : Nat) (outLog : List String),
      control_loop ticks runningAt fuel i log = some (n, outLog) →
      runningAt n = false ∧ ∀ j, i ≤ j → j < n → runningAt j = true) ∧
    (∀ (ticks ticks2 : Nat → TickOutcome) (runningAt : Nat → Bool) (fuel i : Nat)
        (log log2 : List String),
      (control_loop ticks runningAt fuel i log).map Prod.fst =
        (control_loop ticks2 runningAt fuel i log2).map Prod.fst) ∧
    (∀ (ticks : Nat → TickOutcome) (runningAt : Nat → Bool) (fuel i : Nat)
        (log : List String) (e : String),
      runningAt i = true → ticks i = TickOutcome.raise e →
      control_loop ticks runningAt (fuel + 1) i log =
        control_loop ticks runningAt fuel (i + 1) (log ++ [e])) := by
  refine ⟨?_, ?_, ?_⟩
  · intro ticks runningAt fuel
    induction fuel with
    | zero => intro i log n outLog h; simp [control_loop] at h
    | succ fuel ih =>
      intro i log n outLog h
      by_cases hr : runningAt i = true
      · rw [control_loop, if_pos hr] at h
        obtain ⟨hn, hj⟩ := ih (i + 1) _ n outLog h
        refine ⟨hn, ?_⟩
        intro j hij hjn
        rcases Nat.eq_or_lt_of_le hij with h' | h'
        · rwa [← h']
        · exact hj j h' hjn
      · rw [control_loop, if_neg hr] at h
        obtain ⟨rfl, rfl⟩ : i = n ∧ log = outLog := by
          simpa using h
        exact ⟨by simpa using hr, fun j hij hjn => absurd (lt_of_le_of_lt hij hjn)
          (lt_irrefl i)⟩
  · intro ticks ticks2 runningAt fuel
    induction fuel with
    | zero => intro i log log2; simp [control_loop]
    | succ fuel ih =>
      intro i log log2
      by_cases hr : runningAt i = true
      · rw [control_loop, control_loop, if_pos hr, if_pos hr]
        exact ih (i + 1) _ _
      · rw [control_loop, control_loop, if_neg hr, if_neg hr]
        simp
  · intro ticks runningAt fuel i log e hr ht
    rw [control_loop, if_pos hr, ht]

/-- Witness for C7: with the flag cleared at iteration 2, the loop whose
first tick raises exits exactly at 2 (flag false there, still true at 1),
exits at the same point as an exception-free loop, and its first raising
iteration just logs and continues. -/
theorem loop_survives_tick_failures_witness :
    c7Running 2 = false ∧ c7Running 1 = true ∧
    ((control_loop c7Ticks c7Running 5 0 []).map Prod.fst =
      (control_loop c7TicksOk c7Running 5 0 []).map Prod.fst) ∧
    control_loop c7Ticks c7Running 5 0 [] =
      control_loop c7Ticks c7Running 4 1 ([] ++ ["boom"]) :=
  ⟨(loop_survives_tick_failures.1 c7Ticks c7Running 5 0 [] 2 ["boom"]
      (by decide)).1,
   (loop_survives_tick_failures.1 c7Ticks c7Running 5 0 [] 2 ["boom"]
      (by decide)).2 1 (by decide) (by decide),
   loop_survives_tick_failures.2.1 c7Ticks c7TicksOk c7Running 5 0 [] [],
   loop_survives_tick_failures.2.2 c7Ticks c7Running 4 0 [] "boom"
     (by decide) (by decide)⟩

/-- `count_fav` distributes over concatenation. -/
lemma count_fav_append (a b : List Cmd) :
    count_fav (a ++ b) = count_fav a + count_fav b :=
  List.countP_append _ _ _

/-- The mirroring step never favorites. -/
lemma count_fav_mirror (pb : SpPlayback) (obs : PlayerObs) (pw : Bool) :
    count_fav (mirror_step pb obs pw).2 = 0 := by
  rcases mirror_step_cmds_shape pb obs pw with h | h | h <;> simp [h, count_fav]

/-- One monitor pass favorites exactly when its guard fires, and then
exactly once. -/
lemma count_fav_monitor (pb : SpPlayback) (spTrack : SpTrack) (obs : PlayerObs)
    (aF fv pw fs : Bool) (tidal : TidalTrack) :
    count_fav (playback_monitor pb spTrack obs aF fv pw fs tidal).cmds =
      (if fav_fires pb obs aF fv pw = true then 1 else 0) := by
  unfold playback_monitor
  simp only []
  rw [count_fav_append, count_fav_append, count_fav_append, count_fav_mirror]
  have h1 : count_fav (if hold_activates pb spTrack obs pw = true
      then [Cmd.spPausePlayback] else []) = 0 := by
    split <;> simp [count_fav]
  have h2 : count_fav (if hold_releases pb spTrack obs pw = true
      then [Cmd.spNextTrack] else []) = 0 := by
    split <;> simp [count_fav]
  rw [h1, h2]
  split <;> simp [count_fav]

/-- An already-favorited track never re-fires the favorite guard. -/
lemma fav_fires_of_favorited (pb : SpPlayback) (obs : PlayerObs) (aF pw : Bool) :
    fav_fires pb obs aF true pw = false := by
  simp [fav_fires]

/-- With a succeeding `add_favorite` call, the flag after the monitor is the
old flag or-ed with the firing of the guard. -/
lemma monitor_favorited_eq (pb : SpPlayback) (spTrack : SpTrack) (obs : PlayerObs)
    (aF fv pw : Bool) (tidal : TidalTrack) :
    (playback_monitor pb spTrack obs aF fv pw true tidal).favorited =
      (fv || fav_fires pb obs aF fv pw) := by
  unfold playback_monitor
  simp only []
  rcases hfire : fav_fires pb obs aF fv pw with _ | _ <;> simp [hfire]

/-- Mute enforcement never favorites. -/
lemma count_fav_mute (p : Prop) [Decidable p] :
    count_fav (if p then [Cmd.spVolume0] else []) = 0 := by
  split <;> simp [count_fav]

/-- One steady tick (same snapshot id as the held track, favorite call
succeeding) preserves the held track and spends at most the remaining
favorite budget: the favorite count it emits plus the budget left afterwards
never exceeds the budget before. -/
lemma sync_tick_fav_budget (inp : TickInput) (s : SyncState) (t0 : SpTrack)
    (hcur : s.currentSpotifyTrack = some t0)
    (hsucc : inp.favSucceeds = true)
    (hsteady : ∀ (pb : SpPlayback) (tr : SpTrack), inp.fetch = some pb →
      pb.item = some tr → tr.id = t0.id) :
    (sync_logic inp s).1.currentSpotifyTrack = some t0 ∧
    count_fav (sync_logic inp s).2 + fav_budget (sync_logic inp s).1 ≤
      fav_budget s := by
  rcases hf : inp.fetch with _ | pb
  · simp [sync_logic, hf, hcur, fav_budget, count_fav]
  · rcases hi : pb.item with _ | tr
    · simp [sync_logic, hf, hi, hcur, fav_budget, count_fav]
    · have hid : tr.id = t0.id := hsteady pb tr hf hi
      simp only [sync_logic, hf, hi]
      rw [if_neg (by simp [hcur, hid])]
      unfold monitor_after
      simp only []
      rcases ht : s.currentTidalTrack with _ | tt
      · simp [ht, hcur, fav_budget, count_fav_mute]
      · simp only [ht]
        by_cases hw : s.waitingForUserSelection = true
        · simp [hw, hcur, fav_budget, count_fav_mute]
        · rw [if_neg hw]
          rw [hsucc]
          refine ⟨by simp [hcur], ?_⟩
          simp only [count_fav_append, count_fav_mute, count_fav_monitor]
          rcases hfv : s.currentSongFavorited with _ | _
          · rcases hfire : fav_fires pb inp.playerAtMonitor s.autoFavorite
                false s.isPausedWaiting with _ | _ <;>
              simp [fav_budget, monitor_favorited_eq, hfire, hfv]
          · simp [fav_budget, monitor_favorited_eq, fav_fires_of_favorited, hfv]

/-- Budget accounting over a steady run: the total favorite count plus the
remaining budget never exceeds the starting budget, and the held track is
preserved. -/
lemma run_ticks_fav_budget (inps : List TickInput) :
    ∀ (s : SyncState) (t0 : SpTrack),
      s.currentSpotifyTrack = some t0 →
      (∀ inp ∈ inps, inp.favSucceeds = true ∧
        ∀ (pb : SpPlayback) (tr : SpTrack), inp.fetch = some pb →
          pb.item = some tr → tr.id = t0.id) →
      (run_ticks inps s).1.currentSpotifyTrack = some t0 ∧
      count_fav (run_ticks inps s).2 + fav_budget (run_ticks inps s).1 ≤
        fav_budget s := by
  induction inps with
  | nil =>
    intro s t0 hcur hall
    simp [run_ticks, hcur, count_fav]
  | cons inp rest ih =>
    intro s t0 hcur hall
    obtain ⟨hs, hsteady⟩ := hall inp (by simp)
    have h1 := sync_tick_fav_budget inp s t0 hcur hs hsteady
    have h2 := ih (sync_logic inp s).1 t0 h1.1
      (fun i hi => hall i (by simp [hi]))
    refine ⟨h2.1, ?_⟩
    simp only [run_ticks, count_fav_append]
    omega

/-- C8: the favorite command for the current Tidal track is emitted by a
monitor pass iff auto-favorite is enabled, the track is not yet favorited,
the bridge is playing (after mirroring) and elapsed/duration has reached
0.90; every confirmed track change resets the favorited flag; and over any
run of ticks that stays on the same source track with succeeding favorite
calls, at most one favorite command is emitted in total. -/
theorem auto_favorite_once_per_track :
    (∀ (pb : SpPlayback) (spTrack : SpTrack) (obs : PlayerObs)
        (aF fv pw fs : Bool) (tidal : TidalTrack),
      Cmd.tidalAddFavorite tidal.id ∈
          (playback_monitor pb spTrack obs aF fv pw fs tidal).cmds ↔
        (aF = true ∧ fv = false ∧ (mirror_step pb obs pw).1 = true ∧
          fav_ratio_reached obs.time obs.duration = true)) ∧
    (∀ (inp : TickInput) (s : SyncState) (pb : SpPlayback) (spTrack : SpTrack),
      (track_change_step inp s pb spTrack).1.currentSongFavorited = false) ∧
    (∀ (inps : List TickInput) (s : SyncState) (t0 : SpTrack),
      s.currentSpotifyTrack = some t0 →
      (∀ inp ∈ inps, inp.favSucceeds = true ∧
        ∀ (pb : SpPlayback) (tr : SpTrack), inp.fetch = some pb →
          pb.item = some tr → tr.id = t0.id) →
      count_fav (run_ticks inps s).2 ≤ 1) := by
  refine ⟨?_, ?_, ?_⟩
  · intro pb spTrack obs aF fv pw fs tidal
    have hmem : Cmd.tidalAddFavorite tidal.id ∈
        (playback_monitor pb spTrack obs aF fv pw fs tidal).cmds ↔
        fav_fires pb obs aF fv pw = true := by
      unfold playback_monitor
      simp only [List.mem_append]
      constructor
      · rintro (((h | h) | h) | h)
        · exfalso
          rcases mirror_step_cmds_shape pb obs pw with h' | h' | h' <;>
            rw [h'] at h <;> simp at h
        · exact (mem_ite_singleton_cond h).1
        · exact absurd (mem_ite_singleton_cond h).2 (by simp)
        · exact absurd (mem_ite_singleton_cond h).2 (by simp)
      · intro h
        exact Or.inl (Or.inl (Or.inr (mem_ite_singleton_self h)))
    rw [hmem]
    cases fv <;> simp [fav_fires, and_assoc]
  · intro inp s pb spTrack
    unfold track_change_step
    rcases hm : search_tidal_match inp.matchEnv spTrack with _ | t
    · simp [hm]
    · simp only [hm]
      split <;> simp
  · intro inps s t0 hcur hall
    have h := run_ticks_fav_budget inps s t0 hcur hall
    have hb : fav_budget s ≤ 1 := by
      unfold fav_budget
      split <;> omega
    omega

/-- Witness for C8: two identical steady qualifying ticks produce at most
one favorite command. -/
theorem auto_favorite_once_per_track_witness :
    count_fav (run_ticks [c8Inp, c8Inp] c8State).2 ≤ 1 :=
  auto_favorite_once_per_track.2.2 [c8Inp, c8Inp] c8State c6TrackA rfl
    (by
      intro inp hm
      have h : inp = c8Inp := by
        rcases List.mem_cons.mp hm with h | h
        · exact h
        · simpa using h
      subst h
      refine ⟨rfl, ?_⟩
      intro pb tr h1 h2
      have hpb : pb = c8Pb := by
        simpa [c8Inp] using h1.symm
      subst hpb
      have htr : tr = c6TrackA := by
        simpa [c8Pb] using h2.symm
      subst htr
      rfl)
